import Mathlib

/-!
Shallow embedding of the Sistema-RAG repository: the staged RAG pipeline of
rag_pipeline.py (RAGPipeline), the single-shot pipeline of rag.py
(SimpleRAGPipeline), and the external text splitter / vector store they
configure, modelled from the design spec where their code is not part of
the repository. External collaborators (PDF loader, embedding model, chat
model, RetrievalQA chain) appear as function parameters.
-/

namespace SistemaRAG

/-- A page of a loaded PDF document: its raw text plus a source identifier,
as produced by the external PyPDFLoader (one document per page). -/
structure Page where
  source : String
  text : List Char
deriving Repr, DecidableEq

/-- A contiguous piece of one page's text, as produced by the text splitter:
the text, the page it came from and the character offset inside that page. -/
structure Chunk where
  source : String
  offset : Nat
  text : List Char
deriving Repr, DecidableEq

/-- The identity of a chunk: its (source, offset) pair. -/
def chunkKey (c : Chunk) : String × Nat :=
  (c.source, c.offset)

/-- Modelled from the spec: the Chunker (langchain's
RecursiveCharacterTextSplitter, which both pipelines configure with
chunk_size and chunk_overlap but whose code is not part of this
repository). Splits one page's text into chunks of at most `size`
characters; each chunk after the first starts `size - overlap` characters
after the previous one, so consecutive chunks share `overlap` characters of
text; a page no longer than `size` yields exactly one chunk holding the
whole page text. The `size - overlap = 0` guard only makes the recursion
total; the configuration check rejects such configurations before this
function runs. -/
def chunkPageFrom (size overlap : Nat) (src : String) (off : Nat) (s : List Char) : List Chunk :=
  if _h : s.length ≤ size ∨ size - overlap = 0 then
    [{ source := src, offset := off, text := s }]
  else
    { source := src, offset := off, text := s.take size } ::
      chunkPageFrom size overlap src (off + (size - overlap)) (s.drop (size - overlap))
termination_by s.length
decreasing_by
  simp only [List.length_drop]
  omega

/-- One unfolding step of the chunker, as a plain conditional equation. -/
theorem chunkPageFrom_eq (size overlap : Nat) (src : String) (off : Nat) (s : List Char) :
    chunkPageFrom size overlap src off s =
      if s.length ≤ size ∨ size - overlap = 0 then
        [{ source := src, offset := off, text := s }]
      else
        { source := src, offset := off, text := s.take size } ::
          chunkPageFrom size overlap src (off + (size - overlap)) (s.drop (size - overlap)) := by
  rw [chunkPageFrom]
  split <;> rfl

/-- All chunks of one page, starting at offset 0. -/
def chunkPage (size overlap : Nat) (p : Page) : List Chunk :=
  chunkPageFrom size overlap p.source 0 p.text

/-- The splitter applied to a whole document: every page is split
independently, so no chunk crosses a page boundary. -/
def splitDocuments (size overlap : Nat) (pages : List Page) : List Chunk :=
  (pages.map (chunkPage size overlap)).flatten

/-- Reassembly of a page from its chunks: the first chunk's text followed by
every later chunk's text with its first `overlap` characters (the prefix
shared with its predecessor) removed. -/
def reassemble (overlap : Nat) : List Chunk → List Char
  | [] => []
  | c :: rest => c.text ++ (rest.map (fun c2 => c2.text.drop overlap)).flatten

/-- The error taxonomy of the design: a bad chunk configuration, a step
invoked before its prerequisite, a question asked before the QA chain
exists, and a missing API key at construction. Each constructor stands for
one of the ValueError exceptions the Python code raises. -/
inductive RAGError where
  | invalidConfiguration
  | outOfOrderOperation
  | pipelineNotReady
  | missingAPIKey
deriving Repr, DecidableEq

/-- An index entry: a chunk paired with its embedding vector. -/
structure Entry where
  chunk : Chunk
  emb : List Int
deriving Repr, DecidableEq

/-- The identity of an entry: the identity of its chunk. -/
def entryKey (e : Entry) : String × Nat :=
  chunkKey e.chunk

/-- Modelled from the spec: insertion of one entry into the index (the
Chroma vector store is external to this repository). An entry whose
(source, offset) identity is already present replaces the prior entry in
place; otherwise the new entry is appended, so insertion order is kept. -/
def insertEntry (idx : List Entry) (e : Entry) : List Entry :=
  if entryKey e ∈ idx.map entryKey then
    idx.map (fun x => if entryKey x = entryKey e then e else x)
  else
    idx ++ [e]

/-- Modelled from the spec: ingestion of a batch of chunks into the index,
embedding each chunk once with the injected embedding function. -/
def insertChunks (embed : List Char → List Int) (idx : List Entry) (cs : List Chunk) : List Entry :=
  cs.foldl (fun acc c => insertEntry acc { chunk := c, emb := embed c.text }) idx

/-- Modelled from the spec: similarity search over the index. Scores every
entry against the query embedding with the metric `sim`, sorts by
descending score (stably, so ties keep insertion order) and returns the
first `k` scored chunks. -/
def searchIndex (sim : List Int → List Int → Int) (idx : List Entry) (qe : List Int) (k : Nat) :
    List (Chunk × Int) :=
  ((idx.map (fun e => (e.chunk, sim qe e.emb))).mergeSort (fun a b => decide (b.2 ≤ a.2))).take k

/-- Configuration of the external chat model: model identity and sampling
temperature, exactly the arguments the pipelines pass to ChatOpenAI and
Ollama at construction. -/
structure LLMConfig where
  model : String
  temperature : Int
deriving Repr, DecidableEq

/-- The state a SimpleRAGPipeline (rag.py) holds once its constructor ran:
the populated vector store, the llm configuration and the retriever's k. -/
structure SimpleRAGPipeline where
  vector_store : List Entry
  llm : LLMConfig
  retrieverK : Nat
deriving Repr, DecidableEq

/-- Constructor of SimpleRAGPipeline (rag.py lines 11-32): the loaded pages
(output of the external loader) are split with chunk_size 1000 and
chunk_overlap 100, the chunks are embedded into the vector store, the llm
is llama3.2 at temperature 0, and the retriever is built with k = 3. -/
def SimpleRAGPipeline.init (embed : List Char → List Int) (pages : List Page) : SimpleRAGPipeline :=
  { vector_store := insertChunks embed [] (splitDocuments 1000 100 pages)
  , llm := { model := "llama3.2", temperature := 0 }
  , retrieverK := 3 }

/-- The documents rag.py's query retrieves for a question: top-k similarity
search over the pipeline's vector store with the question's embedding. -/
def retrieveDocs (p : SimpleRAGPipeline) (embed : List Char → List Int)
    (sim : List Int → List Int → Int) (question : String) : List Chunk :=
  (searchIndex sim p.vector_store (embed question.data) p.retrieverK).map Prod.fst

/-- The fixed prompt template of rag.py's query (lines 39-46): instruction
sentence, context block, question, answer cue. -/
def promptTemplate (context question : String) : String :=
  "Utiliza el siguiente contexto para responder a la pregunta. Si no sabes la respuesta basándote en el contexto, di que no lo sabes.\n\nContexto:\n"
    ++ context ++ "\n\nPregunta: " ++ question ++ "\n\nRespuesta:"

/-- The instruction sentence that opens the prompt: answer from the given
context only, and say so when the context does not suffice. -/
def instructionText : String :=
  "Utiliza el siguiente contexto para responder a la pregunta. Si no sabes la respuesta basándote en el contexto, di que no lo sabes."

/-- The record rag.py's query returns: the answer text, the retrieved
source documents and the original question. -/
structure QueryResult where
  result : String
  source_documents : List Chunk
  query : String
deriving Repr, DecidableEq

/-- rag.py's query (lines 34-54): retrieves the top-k documents for the
question, joins their texts with a blank line into the context block,
fills the prompt template and invokes the llm on it; returns the llm's
output verbatim together with the retrieved documents and the question. -/
def SimpleRAGPipeline.query (p : SimpleRAGPipeline) (embed : List Char → List Int)
    (sim : List Int → List Int → Int) (llmInvoke : LLMConfig → String → String)
    (question : String) : QueryResult :=
  let source_documents := retrieveDocs p embed sim question
  let context := String.intercalate "\n\n" (source_documents.map (fun d => String.mk d.text))
  let prompt := promptTemplate context question
  { result := llmInvoke p.llm prompt
  , source_documents := source_documents
  , query := question }

/-- What rag_pipeline.py's setup_qa_chain builds: a RetrievalQA chain
holding the llm configuration, the retriever's k and the vector store the
retriever reads. -/
structure QAChain where
  llm : LLMConfig
  k : Nat
  store : List Entry
deriving Repr, DecidableEq

/-- The mutable state of a RAGPipeline object (rag_pipeline.py): the two
constructor arguments plus the four staged fields, each None until the
corresponding step has run. -/
structure RAGState where
  pdf_path : String
  persist_directory : String
  documents : Option (List Page)
  text_chunks : Option (List Chunk)
  vectorstore : Option (List Entry)
  qa_chain : Option QAChain
deriving Repr, DecidableEq

namespace RAGPipeline

/-- Constructor of RAGPipeline (rag_pipeline.py lines 30-54): reads
OPENAI_API_KEY from the environment left by load_dotenv; a missing or
empty key raises ValueError before anything else happens; otherwise the
four staged fields start as None. -/
def init (env : String → Option String) (pdf_path persist_directory : String) :
    Except RAGError RAGState :=
  match env "OPENAI_API_KEY" with
  | none => .error .missingAPIKey
  | some key =>
    if key = "" then .error .missingAPIKey
    else .ok { pdf_path := pdf_path, persist_directory := persist_directory
             , documents := none, text_chunks := none
             , vectorstore := none, qa_chain := none }

/-- load_pdf (rag_pipeline.py lines 56-62): loads the pages through the
external loader and stores them in the documents field. -/
def load_pdf (loader : String → List Page) (st : RAGState) :
    Except RAGError (List Page × RAGState) :=
  let docs := loader st.pdf_path
  .ok (docs, { st with documents := some docs })

/-- split_text (rag_pipeline.py lines 64-83): requires load_pdf's output,
then builds the splitter — whose configuration check is modelled from the
spec: chunk_overlap ≥ chunk_size is an InvalidConfiguration error raised
before any chunk is produced — and splits the loaded pages. -/
def split_text (st : RAGState) (chunk_size chunk_overlap : Nat) :
    Except RAGError (List Chunk × RAGState) :=
  match st.documents with
  | none => .error .outOfOrderOperation
  | some docs =>
    if chunk_size ≤ chunk_overlap then .error .invalidConfiguration
    else
      let chunks := splitDocuments chunk_size chunk_overlap docs
      .ok (chunks, { st with text_chunks := some chunks })

/-- create_vectorstore (rag_pipeline.py lines 85-100): requires
split_text's output; embeds the chunks and inserts them into the store
persisted at persist_directory (an empty store when none exists yet). -/
def create_vectorstore (embed : List Char → List Int) (st : RAGState) :
    Except RAGError (List Entry × RAGState) :=
  match st.text_chunks with
  | none => .error .outOfOrderOperation
  | some chunks =>
    let store := insertChunks embed (st.vectorstore.getD []) chunks
    .ok (store, { st with vectorstore := some store })

/-- setup_qa_chain (rag_pipeline.py lines 102-127): requires
create_vectorstore's output; builds the RetrievalQA chain with the given
model at temperature 0 and a retriever with k = 3 over the store. -/
def setup_qa_chain (st : RAGState) (model_name : String) :
    Except RAGError (QAChain × RAGState) :=
  match st.vectorstore with
  | none => .error .outOfOrderOperation
  | some store =>
    let chain : QAChain :=
      { llm := { model := model_name, temperature := 0 }, k := 3, store := store }
    .ok (chain, { st with qa_chain := some chain })

/-- initialize (rag_pipeline.py lines 129-141): the four steps in
sequence, with the default model name. -/
def fullInit (loader : String → List Page) (embed : List Char → List Int)
    (st : RAGState) (chunk_size chunk_overlap : Nat) : Except RAGError RAGState := do
  let (_, st1) ← load_pdf loader st
  let (_, st2) ← split_text st1 chunk_size chunk_overlap
  let (_, st3) ← create_vectorstore embed st2
  let (_, st4) ← setup_qa_chain st3 "gpt-4o-mini"
  return st4

/-- query (rag_pipeline.py lines 143-162): requires the QA chain;
otherwise the question is handed to the external RetrievalQA chain (a
parameter here), which returns the answer and the source documents; the
pipeline state is not touched. -/
def query (chainInvoke : QAChain → String → String × List Chunk) (st : RAGState)
    (question : String) : Except RAGError ((String × List Chunk) × RAGState) :=
  match st.qa_chain with
  | none => .error .pipelineNotReady
  | some chain => .ok (chainInvoke chain question, st)

end RAGPipeline

/-! Chunker lemmas: head shape, length bound, adjacency, round trip. -/

/-- Under a valid configuration the chunker's output always starts with the
chunk taken at the given offset. -/
theorem chunkPageFrom_head (size overlap : Nat) (src : String) (off : Nat) (s : List Char)
    (h : overlap < size) :
    ∃ rest, chunkPageFrom size overlap src off s =
      { source := src, offset := off, text := s.take size } :: rest := by
  rw [chunkPageFrom_eq]
  split
  next hc =>
    refine ⟨[], ?_⟩
    have hs : s.length ≤ size := by
      rcases hc with hc | hc
      · exact hc
      · omega
    rw [List.take_of_length_le hs]
  next hc => exact ⟨_, rfl⟩

/-- Every chunk the chunker produces is at most `size` characters long. -/
theorem length_le_of_mem_chunkPageFrom (size overlap : Nat) (src : String) (off : Nat)
    (s : List Char) (h : overlap < size) :
    ∀ c ∈ chunkPageFrom size overlap src off s, c.text.length ≤ size := by
  rw [chunkPageFrom_eq]
  split
  next hc =>
    intro c hcmem
    have hs : s.length ≤ size := by
      rcases hc with hc | hc
      · exact hc
      · omega
    simp only [List.mem_singleton] at hcmem
    subst hcmem
    exact hs
  next hc =>
    intro c hcmem
    rcases List.mem_cons.mp hcmem with h1 | h2
    · subst h1
      simp only [List.length_take]
      omega
    · exact length_le_of_mem_chunkPageFrom size overlap src (off + (size - overlap))
        (s.drop (size - overlap)) h c h2
termination_by s.length
decreasing_by
  simp only [List.length_drop]
  omega

/-- The relation between two consecutive chunks of one page: same page, the
earlier chunk is exactly `size` long, the later one starts `size - overlap`
characters further, and its first `overlap` characters are exactly the last
`overlap` characters of the earlier chunk. -/
def adjacentRel (size overlap : Nat) (a b : Chunk) : Prop :=
  b.source = a.source
  ∧ a.text.length = size
  ∧ b.offset = a.offset + (size - overlap)
  ∧ b.text.take overlap = a.text.drop (size - overlap)

/-- Consecutive chunks of a page overlap by exactly `overlap` characters. -/
theorem chain_chunkPageFrom (size overlap : Nat) (src : String) (off : Nat) (s : List Char)
    (h : overlap < size) :
    List.Chain' (adjacentRel size overlap) (chunkPageFrom size overlap src off s) := by
  rw [chunkPageFrom_eq]
  split
  next hc => exact List.chain'_singleton _
  next hc =>
    push_neg at hc
    obtain ⟨hlen, hstep⟩ := hc
    obtain ⟨rest, hrest⟩ := chunkPageFrom_head size overlap src (off + (size - overlap))
      (s.drop (size - overlap)) h
    have hIH := chain_chunkPageFrom size overlap src (off + (size - overlap))
      (s.drop (size - overlap)) h
    rw [hrest] at hIH
    rw [hrest, List.chain'_cons]
    refine ⟨⟨rfl, ?_, rfl, ?_⟩, hIH⟩
    · simp only [List.length_take]
      omega
    · show ((s.drop (size - overlap)).take size).take overlap = (s.take size).drop (size - overlap)
      rw [List.take_take, List.drop_take]
      congr 1
      omega
termination_by s.length
decreasing_by
  simp only [List.length_drop]
  omega

/-- Reassembling the chunker's output restores the page text exactly. -/
theorem reassemble_chunkPageFrom (size overlap : Nat) (src : String) (off : Nat) (s : List Char)
    (h : overlap < size) :
    reassemble overlap (chunkPageFrom size overlap src off s) = s := by
  rw [chunkPageFrom_eq]
  split
  next hc => simp [reassemble]
  next hc =>
    push_neg at hc
    obtain ⟨hlen, hstep⟩ := hc
    have hIH := reassemble_chunkPageFrom size overlap src (off + (size - overlap))
      (s.drop (size - overlap)) h
    obtain ⟨rest, hrest⟩ := chunkPageFrom_head size overlap src (off + (size - overlap))
      (s.drop (size - overlap)) h
    rw [hrest] at hIH
    rw [hrest]
    simp only [reassemble, List.map_cons, List.flatten_cons] at hIH ⊢
    have htlen : overlap ≤ ((s.drop (size - overlap)).take size).length := by
      simp only [List.length_take, List.length_drop]
      omega
    rw [← List.drop_append_of_le_length htlen, hIH, List.drop_drop]
    have hsum : size - overlap + overlap = size := by omega
    rw [hsum]
    exact List.take_append_drop size s
termination_by s.length
decreasing_by
  simp only [List.length_drop]
  omega

/-- C5: for every valid configuration (chunk_overlap < chunk_size) and every
document, the chunks split_text produces satisfy: every chunk is at most
chunk_size characters long; within a page each chunk that has a successor is
exactly chunk_size long and its successor lies on the same page, starts
chunk_size - chunk_overlap characters further and shares exactly
chunk_overlap characters of text with it; and concatenating a page's chunks
with every later chunk's overlapping prefix removed restores the page text
exactly. -/
theorem chunker_bounds_overlap_roundtrip (size overlap : Nat) (h : overlap < size)
    (pages : List Page) :
    splitDocuments size overlap pages = (pages.map (chunkPage size overlap)).flatten
    ∧ ∀ p ∈ pages,
        (∀ c ∈ chunkPage size overlap p, c.text.length ≤ size)
        ∧ List.Chain' (adjacentRel size overlap) (chunkPage size overlap p)
        ∧ reassemble overlap (chunkPage size overlap p) = p.text := by
  refine ⟨rfl, fun p _ => ⟨?_, ?_, ?_⟩⟩
  · exact length_le_of_mem_chunkPageFrom size overlap p.source 0 p.text h
  · exact chain_chunkPageFrom size overlap p.source 0 p.text h
  · exact reassemble_chunkPageFrom size overlap p.source 0 p.text h

/-! Index lemmas: key bookkeeping of insertion, and idempotence of
re-ingesting the same chunks. -/

/-- The keys of the index after one insertion: unchanged on a replacement,
extended by the new key on an append. -/
theorem keys_insertEntry (idx : List Entry) (e : Entry) :
    (insertEntry idx e).map entryKey =
      if entryKey e ∈ idx.map entryKey then idx.map entryKey
      else idx.map entryKey ++ [entryKey e] := by
  by_cases hmem : entryKey e ∈ idx.map entryKey
  · rw [if_pos hmem]
    simp only [insertEntry, if_pos hmem, List.map_map]
    apply List.map_congr_left
    intro x _
    simp only [Function.comp_apply]
    by_cases hk : entryKey x = entryKey e
    · rw [if_pos hk, hk]
    · rw [if_neg hk]
  · rw [if_neg hmem]
    simp only [insertEntry, if_neg hmem, List.map_append, List.map_cons, List.map_nil]

/-- Insertion keeps the keys of the index free of duplicates. -/
theorem nodupKeys_insertEntry (idx : List Entry) (e : Entry)
    (h : (idx.map entryKey).Nodup) : ((insertEntry idx e).map entryKey).Nodup := by
  rw [keys_insertEntry]
  split
  next => exact h
  next hmem =>
    refine List.Nodup.append h (List.nodup_singleton _) ?_
    intro a ha hb
    simp only [List.mem_singleton] at hb
    subst hb
    exact hmem ha

/-- Ingesting any batch keeps the keys of the index free of duplicates. -/
theorem nodupKeys_insertChunks (embed : List Char → List Int) (idx : List Entry)
    (cs : List Chunk) (h : (idx.map entryKey).Nodup) :
    ((insertChunks embed idx cs).map entryKey).Nodup := by
  induction cs generalizing idx with
  | nil => exact h
  | cons c cs ih =>
    simp only [insertChunks, List.foldl_cons] at ih ⊢
    exact ih _ (nodupKeys_insertEntry idx _ h)

/-- Folding insertion over entries with fresh, pairwise distinct keys just
appends them in order. -/
theorem foldl_insertEntry_append (es : List Entry) (acc : List Entry)
    (hnd : (((acc ++ es)).map entryKey).Nodup) :
    es.foldl insertEntry acc = acc ++ es := by
  induction es generalizing acc with
  | nil => simp
  | cons e es ih =>
    have hnd' : ((acc.map entryKey) ++ (entryKey e :: es.map entryKey)).Nodup := by
      simpa using hnd
    have hmem : entryKey e ∉ acc.map entryKey := by
      intro hk
      exact List.disjoint_of_nodup_append hnd' hk (List.mem_cons_self _ _)
    have hins : insertEntry acc e = acc ++ [e] := by
      unfold insertEntry
      rw [if_neg hmem]
    have hnd2 : (((acc ++ [e]) ++ es).map entryKey).Nodup := by
      have heq : (acc ++ [e]) ++ es = acc ++ e :: es := by simp
      rw [heq]
      exact hnd
    rw [List.foldl_cons, hins, ih (acc ++ [e]) hnd2]
    simp

/-- Folding insertion over entries that are all already present verbatim in
the index leaves the index unchanged. -/
theorem foldl_insertEntry_id (idx : List Entry) (es : List Entry)
    (hsub : ∀ e ∈ es, entryKey e ∈ idx.map entryKey)
    (huniq : ∀ e ∈ es, ∀ x ∈ idx, entryKey x = entryKey e → x = e) :
    es.foldl insertEntry idx = idx := by
  induction es with
  | nil => rfl
  | cons e es ih =>
    have h1 : insertEntry idx e = idx := by
      unfold insertEntry
      rw [if_pos (hsub e (List.mem_cons_self e es))]
      have hpt : ∀ x ∈ idx, (if entryKey x = entryKey e then e else x) = x := by
        intro x hx
        by_cases hk : entryKey x = entryKey e
        · rw [if_pos hk, huniq e (List.mem_cons_self e es) x hx hk]
        · rw [if_neg hk]
      calc idx.map (fun x => if entryKey x = entryKey e then e else x)
          = idx.map id := List.map_congr_left hpt
        _ = idx := List.map_id idx
    rw [List.foldl_cons, h1]
    exact ih (fun e' he' => hsub e' (List.mem_cons_of_mem e he'))
      (fun e' he' => huniq e' (List.mem_cons_of_mem e he'))

/-- Re-ingesting the same chunks (with pairwise distinct identities) into
the index they produced changes nothing. -/
theorem insertChunks_idempotent (embed : List Char → List Int) (cs : List Chunk)
    (hnd : (cs.map chunkKey).Nodup) :
    insertChunks embed (insertChunks embed [] cs) cs = insertChunks embed [] cs := by
  have hfold : ∀ idx : List Entry, insertChunks embed idx cs
      = (cs.map (fun c => ({ chunk := c, emb := embed c.text } : Entry))).foldl insertEntry idx := by
    intro idx
    rw [insertChunks, List.foldl_map]
  have hkeys : (cs.map (fun c => ({ chunk := c, emb := embed c.text } : Entry))).map entryKey
      = cs.map chunkKey := by
    rw [List.map_map]
    rfl
  have h1 : insertChunks embed [] cs
      = cs.map (fun c => ({ chunk := c, emb := embed c.text } : Entry)) := by
    rw [hfold []]
    have hnd0 : ((([] ++ cs.map (fun c => ({ chunk := c, emb := embed c.text } : Entry)))).map entryKey).Nodup := by
      simpa [hkeys] using hnd
    simpa using foldl_insertEntry_append _ [] hnd0
  have hnd' : ((cs.map (fun c => ({ chunk := c, emb := embed c.text } : Entry))).map entryKey).Nodup := by
    rw [hkeys]
    exact hnd
  have h2 : insertChunks embed (cs.map (fun c => ({ chunk := c, emb := embed c.text } : Entry))) cs
      = cs.map (fun c => ({ chunk := c, emb := embed c.text } : Entry)) := by
    rw [hfold]
    apply foldl_insertEntry_id
    · intro e he
      exact List.mem_map_of_mem entryKey he
    · intro e he x hx hk
      exact List.inj_on_of_nodup_map hnd' hx he hk
  rw [h1, h2]

/-- C4: re-running create_vectorstore on the identical chunk list over the
store the first run produced returns the very same store: the index never
holds two entries with the same (source, offset) identity, and similarity
search over the twice-ingested store gives the same results as over the
once-ingested store, for every metric, query embedding and k. -/
theorem ingest_idempotent_per_identity (embed : List Char → List Int) (cs : List Chunk)
    (hnd : (cs.map chunkKey).Nodup) (st : RAGState)
    (hc : st.text_chunks = some cs)
    (hv : st.vectorstore = some (insertChunks embed [] cs)) :
    RAGPipeline.create_vectorstore embed st
      = .ok (insertChunks embed [] cs,
          { st with vectorstore := some (insertChunks embed [] cs) })
    ∧ ((insertChunks embed [] cs).map entryKey).Nodup
    ∧ ∀ sim qe k,
        searchIndex sim (insertChunks embed (insertChunks embed [] cs) cs) qe k
          = searchIndex sim (insertChunks embed [] cs) qe k := by
  have hidem := insertChunks_idempotent embed cs hnd
  refine ⟨?_, ?_, ?_⟩
  · simp only [RAGPipeline.create_vectorstore, hc, hv, Option.getD_some]
    rw [hidem]
  · exact nodupKeys_insertChunks embed [] cs (by simp)
  · intro sim qe k
    rw [hidem]

/-- A small concrete page used by the witnesses. -/
def pageA : Page :=
  { source := "page1", text := "abcdefghijk".data }

/-- C5 witness: the configuration size 5, overlap 2 is valid and the
round-trip law holds on a concrete page. -/
theorem chunker_bounds_overlap_roundtrip_witness :
    2 < 5 ∧ ∀ p ∈ [pageA], reassemble 2 (chunkPage 5 2 p) = p.text := by
  refine ⟨by omega, fun p hp => ?_⟩
  exact ((chunker_bounds_overlap_roundtrip 5 2 (by omega) [pageA]).2 p hp).2.2

/-! Concrete sample data shared by the witnesses. -/

/-- A concrete embedding function: the text length as a one-dimensional
vector. -/
def embedLen : List Char → List Int := fun s => [Int.ofNat s.length]

/-- A concrete similarity metric that scores everything equally. -/
def simZero : List Int → List Int → Int := fun _ _ => 0

/-- A concrete generation model that returns the prompt it was given. -/
def llmEcho : LLMConfig → String → String := fun _ prompt => prompt

/-- Two concrete chunks with distinct (source, offset) identities. -/
def chunkB1 : Chunk := { source := "page1", offset := 0, text := "hello".data }

/-- Second sample chunk, same page, different offset. -/
def chunkB2 : Chunk := { source := "page1", offset := 3, text := "lo wor".data }

/-- The sample chunk batch. -/
def csB : List Chunk := [chunkB1, chunkB2]

/-- A pipeline state that has loaded nothing yet: all staged fields None. -/
def stNew : RAGState :=
  { pdf_path := "doc.pdf", persist_directory := "./chroma_db"
  , documents := none, text_chunks := none, vectorstore := none, qa_chain := none }

/-- A pipeline state after one ingestion of the sample batch. -/
def stB : RAGState :=
  { pdf_path := "doc.pdf", persist_directory := "./chroma_db"
  , documents := none, text_chunks := some csB
  , vectorstore := some (insertChunks embedLen [] csB), qa_chain := none }

/-- A pipeline state whose documents are loaded but nothing further. -/
def stDocs : RAGState :=
  { pdf_path := "doc.pdf", persist_directory := "./chroma_db"
  , documents := some [pageA], text_chunks := none
  , vectorstore := none, qa_chain := none }

/-- A pipeline state holding an (empty) vector store, ready for
setup_qa_chain. -/
def stStore : RAGState :=
  { pdf_path := "doc.pdf", persist_directory := "./chroma_db"
  , documents := none, text_chunks := none
  , vectorstore := some [], qa_chain := none }

/-- The chain setup_qa_chain builds over the empty store. -/
def chainStore : QAChain :=
  { llm := { model := "gpt-4o-mini", temperature := 0 }, k := 3, store := [] }

/-- C4 witness: the sample batch has pairwise distinct identities, and
searching the twice-ingested store equals searching the once-ingested
store. -/
theorem ingest_idempotent_per_identity_witness :
    (csB.map chunkKey).Nodup
    ∧ stB.text_chunks = some csB
    ∧ ∀ sim qe k,
        searchIndex sim (insertChunks embedLen (insertChunks embedLen [] csB) csB) qe k
          = searchIndex sim (insertChunks embedLen [] csB) qe k := by
  have hnd : (csB.map chunkKey).Nodup := by decide
  exact ⟨hnd, rfl, (ingest_idempotent_per_identity embedLen csB hnd stB rfl rfl).2.2⟩

/-! Orchestrator claims: the lifecycle state machine. -/

/-- C1: asking before the QA chain is configured fails with
PipelineNotReady and changes nothing: the constructor leaves qa_chain
unset; load_pdf, split_text and create_vectorstore never set it; query on
a state without a chain returns the PipelineNotReady error; and a query
that returns a value at all returns the state unchanged and only does so
when the chain is set (the Ready state). -/
theorem query_requires_ready :
    (∀ env p d st, RAGPipeline.init env p d = .ok st → st.qa_chain = none)
    ∧ (∀ loader st out, RAGPipeline.load_pdf loader st = .ok out → out.2.qa_chain = st.qa_chain)
    ∧ (∀ st a b out, RAGPipeline.split_text st a b = .ok out → out.2.qa_chain = st.qa_chain)
    ∧ (∀ embed st out, RAGPipeline.create_vectorstore embed st = .ok out →
        out.2.qa_chain = st.qa_chain)
    ∧ (∀ chainInvoke st q, st.qa_chain = none →
        RAGPipeline.query chainInvoke st q = .error .pipelineNotReady)
    ∧ (∀ chainInvoke st q out st', RAGPipeline.query chainInvoke st q = .ok (out, st') →
        st' = st ∧ st.qa_chain ≠ none) := by
  refine ⟨?_, ?_, ?_, ?_, ?_, ?_⟩
  · intro env p d st h
    cases henv : env "OPENAI_API_KEY" with
    | none => simp [RAGPipeline.init, henv] at h
    | some key =>
      simp only [RAGPipeline.init, henv] at h
      by_cases hk : key = ""
      · rw [if_pos hk] at h
        exact absurd h (by simp)
      · rw [if_neg hk] at h
        cases h
        rfl
  · intro loader st out h
    simp only [RAGPipeline.load_pdf] at h
    cases h
    rfl
  · intro st a b out h
    cases hd : st.documents with
    | none => simp [RAGPipeline.split_text, hd] at h
    | some docs =>
      simp only [RAGPipeline.split_text, hd] at h
      by_cases hcfg : a ≤ b
      · rw [if_pos hcfg] at h
        exact absurd h (by simp)
      · rw [if_neg hcfg] at h
        cases h
        rfl
  · intro embed st out h
    cases hd : st.text_chunks with
    | none => simp [RAGPipeline.create_vectorstore, hd] at h
    | some chunks =>
      simp only [RAGPipeline.create_vectorstore, hd] at h
      cases h
      rfl
  · intro chainInvoke st q h
    simp [RAGPipeline.query, h]
  · intro chainInvoke st q out st' h
    cases hq : st.qa_chain with
    | none => simp [RAGPipeline.query, hq] at h
    | some chain =>
      simp only [RAGPipeline.query, hq] at h
      cases h
      exact ⟨rfl, by simp [hq]⟩

/-- C1 witness: on the fresh state the chain is unset and query fails with
PipelineNotReady. -/
theorem query_requires_ready_witness :
    stNew.qa_chain = none
    ∧ RAGPipeline.query (fun _ _ => ("", [])) stNew "hola" = .error .pipelineNotReady :=
  ⟨rfl, query_requires_ready.2.2.2.2.1 (fun _ _ => ("", [])) stNew "hola" rfl⟩

/-- C2: each ingestion step requires the previous step's output: split_text
without loaded documents, create_vectorstore without chunks and
setup_qa_chain without a vector store each fail with OutOfOrderOperation
(returning no new state at all). -/
theorem steps_require_previous_output :
    (∀ st a b, st.documents = none →
        RAGPipeline.split_text st a b = .error .outOfOrderOperation)
    ∧ (∀ embed st, st.text_chunks = none →
        RAGPipeline.create_vectorstore embed st = .error .outOfOrderOperation)
    ∧ (∀ st m, st.vectorstore = none →
        RAGPipeline.setup_qa_chain st m = .error .outOfOrderOperation) := by
  refine ⟨?_, ?_, ?_⟩
  · intro st a b h
    simp [RAGPipeline.split_text, h]
  · intro embed st h
    simp [RAGPipeline.create_vectorstore, h]
  · intro st m h
    simp [RAGPipeline.setup_qa_chain, h]

/-- C2 witness: all three out-of-order errors fire on the fresh state. -/
theorem steps_require_previous_output_witness :
    stNew.documents = none
    ∧ RAGPipeline.split_text stNew 1000 100 = .error .outOfOrderOperation
    ∧ RAGPipeline.create_vectorstore embedLen stNew = .error .outOfOrderOperation
    ∧ RAGPipeline.setup_qa_chain stNew "gpt-4o-mini" = .error .outOfOrderOperation :=
  ⟨rfl, steps_require_previous_output.1 stNew 1000 100 rfl,
    steps_require_previous_output.2.1 embedLen stNew rfl,
    steps_require_previous_output.2.2 stNew "gpt-4o-mini" rfl⟩

/-- C3: with documents loaded, split_text under chunk_overlap ≥ chunk_size
fails with InvalidConfiguration, producing no chunks and no new state. -/
theorem split_text_invalid_config (st : RAGState) (docs : List Page) (cs co : Nat)
    (hdocs : st.documents = some docs) (hbad : cs ≤ co) :
    RAGPipeline.split_text st cs co = .error .invalidConfiguration := by
  simp [RAGPipeline.split_text, hdocs, hbad]

/-- C3 witness: chunk_size 5 with chunk_overlap 7 is rejected on a state
with a loaded document. -/
theorem split_text_invalid_config_witness :
    stDocs.documents = some [pageA] ∧ 5 ≤ 7
    ∧ RAGPipeline.split_text stDocs 5 7 = .error .invalidConfiguration :=
  ⟨rfl, by omega, split_text_invalid_config stDocs [pageA] 5 7 rfl (by omega)⟩

/-- C10: the constructor fails with the missing-key ValueError when
OPENAI_API_KEY is unset in the environment load_dotenv left, before
touching any collaborator; and every successfully constructed state
carries the given paths with documents, text_chunks, vectorstore and
qa_chain all None. -/
theorem constructor_key_check (env : String → Option String) (p d : String) :
    (env "OPENAI_API_KEY" = none → RAGPipeline.init env p d = .error .missingAPIKey)
    ∧ ∀ st, RAGPipeline.init env p d = .ok st →
        st.pdf_path = p ∧ st.persist_directory = d ∧ st.documents = none
        ∧ st.text_chunks = none ∧ st.vectorstore = none ∧ st.qa_chain = none := by
  constructor
  · intro h
    simp [RAGPipeline.init, h]
  · intro st h
    cases henv : env "OPENAI_API_KEY" with
    | none => simp [RAGPipeline.init, henv] at h
    | some key =>
      simp only [RAGPipeline.init, henv] at h
      by_cases hk : key = ""
      · rw [if_pos hk] at h
        exact absurd h (by simp)
      · rw [if_neg hk] at h
        cases h
        exact ⟨rfl, rfl, rfl, rfl, rfl, rfl⟩

/-- An environment without the API key. -/
def envNoKey : String → Option String := fun _ => none

/-- An environment holding a non-empty API key. -/
def envGood : String → Option String :=
  fun n => if n = "OPENAI_API_KEY" then some "sk-test" else none

/-- C10 witness: the keyless environment is rejected, and the constructor
run under the good environment yields the all-None staged fields. -/
theorem constructor_key_check_witness :
    envNoKey "OPENAI_API_KEY" = none
    ∧ RAGPipeline.init envNoKey "doc.pdf" "./chroma_db" = .error .missingAPIKey
    ∧ stNew.documents = none ∧ stNew.qa_chain = none :=
  ⟨rfl, (constructor_key_check envNoKey "doc.pdf" "./chroma_db").1 rfl,
    ((constructor_key_check envGood "doc.pdf" "./chroma_db").2 stNew (by rfl)).2.2.1,
    ((constructor_key_check envGood "doc.pdf" "./chroma_db").2 stNew (by rfl)).2.2.2.2.2⟩

/-! Query-time claims on rag.py's pipeline. -/

/-- A pipeline with an empty vector store. -/
def pEmpty : SimpleRAGPipeline :=
  { vector_store := [], llm := { model := "llama3.2", temperature := 0 }, retrieverK := 3 }

/-- A pipeline whose store holds four entries with distinct identities. -/
def pFour : SimpleRAGPipeline :=
  { vector_store :=
      [ { chunk := { source := "page1", offset := 0, text := "aaa".data }, emb := [0] }
      , { chunk := { source := "page1", offset := 3, text := "bbb".data }, emb := [1] }
      , { chunk := { source := "page1", offset := 6, text := "ccc".data }, emb := [2] }
      , { chunk := { source := "page1", offset := 9, text := "ddd".data }, emb := [3] } ]
  , llm := { model := "llama3.2", temperature := 0 }
  , retrieverK := 3 }

/-- C6: the assembled prompt sent to the generator embeds, in the fixed
template, the retrieved chunk texts joined in retrieval order by a blank
line as the context block; with an empty retrieval the context block is
empty yet the prompt is still assembled and handed to the generator; the
template opens with the instruction to answer only from the context and to
state ignorance otherwise, and carries the context block verbatim. -/
theorem prompt_assembly_spec (p : SimpleRAGPipeline) (embed : List Char → List Int)
    (sim : List Int → List Int → Int) (llmInvoke : LLMConfig → String → String)
    (question : String) :
    (SimpleRAGPipeline.query p embed sim llmInvoke question).result
      = llmInvoke p.llm (promptTemplate
          (String.intercalate "\n\n"
            ((retrieveDocs p embed sim question).map (fun d => String.mk d.text)))
          question)
    ∧ (retrieveDocs p embed sim question = [] →
        (SimpleRAGPipeline.query p embed sim llmInvoke question).result
          = llmInvoke p.llm (promptTemplate "" question))
    ∧ (∀ context : String, ∃ rest : String,
        promptTemplate context question = instructionText ++ rest)
    ∧ (∀ context : String, ∃ pre post : String,
        promptTemplate context question = pre ++ (context ++ post)) := by
  refine ⟨rfl, ?_, ?_, ?_⟩
  · intro h
    show llmInvoke p.llm (promptTemplate (String.intercalate "\n\n"
        ((retrieveDocs p embed sim question).map (fun d => String.mk d.text))) question)
      = llmInvoke p.llm (promptTemplate "" question)
    rw [h]
    rfl
  · intro context
    refine ⟨"\n\nContexto:\n" ++ (context ++ ("\n\nPregunta: "
      ++ (question ++ "\n\nRespuesta:"))), ?_⟩
    have hlit : ("Utiliza el siguiente contexto para responder a la pregunta. Si no sabes la respuesta basándote en el contexto, di que no lo sabes.\n\nContexto:\n" : String)
        = instructionText ++ "\n\nContexto:\n" := rfl
    rw [promptTemplate, hlit]
    simp only [String.append_assoc]
  · intro context
    refine ⟨"Utiliza el siguiente contexto para responder a la pregunta. Si no sabes la respuesta basándote en el contexto, di que no lo sabes.\n\nContexto:\n",
      "\n\nPregunta: " ++ (question ++ "\n\nRespuesta:"), ?_⟩
    rw [promptTemplate]
    simp only [String.append_assoc]

/-- C6 witness: on the empty store the retrieval is empty and the prompt
with the empty context block still reaches the generator. -/
theorem prompt_assembly_spec_witness :
    retrieveDocs pEmpty embedLen simZero "hola" = []
    ∧ (SimpleRAGPipeline.query pEmpty embedLen simZero llmEcho "hola").result
        = llmEcho pEmpty.llm (promptTemplate "" "hola") := by
  have hempty : retrieveDocs pEmpty embedLen simZero "hola" = [] := by
    simp [retrieveDocs, searchIndex, pEmpty]
  exact ⟨hempty, (prompt_assembly_spec pEmpty embedLen simZero llmEcho "hola").2.1 hempty⟩

/-- C7: with the generation model stubbed to a fixed string s, query
returns s verbatim as the answer, the retrieved top-k documents (in
retrieval order) as the sources, and the question itself in the query
field; retrieval never exceeds the configured k. -/
theorem query_answer_sources_verbatim (p : SimpleRAGPipeline) (embed : List Char → List Int)
    (sim : List Int → List Int → Int) (s question : String) :
    (SimpleRAGPipeline.query p embed sim (fun _ _ => s) question).result = s
    ∧ (SimpleRAGPipeline.query p embed sim (fun _ _ => s) question).source_documents
        = retrieveDocs p embed sim question
    ∧ (SimpleRAGPipeline.query p embed sim (fun _ _ => s) question).query = question
    ∧ (SimpleRAGPipeline.query p embed sim (fun _ _ => s) question).source_documents
        = (searchIndex sim p.vector_store (embed question.data) p.retrieverK).map Prod.fst
    ∧ (SimpleRAGPipeline.query p embed sim (fun _ _ => s) question).source_documents.length
        ≤ p.retrieverK := by
  refine ⟨rfl, rfl, rfl, rfl, ?_⟩
  show (retrieveDocs p embed sim question).length ≤ p.retrieverK
  simp only [retrieveDocs, searchIndex, List.length_map]
  exact List.length_take_le _ _

/-- Modelled from the spec's words, for refutation: "k defaults to 3 but is
caller-configurable" — read as: for every admissible result count k, the
caller of the query operation can make retrieval return exactly k
documents. -/
def callerConfigurableK (p : SimpleRAGPipeline) (embed : List Char → List Int)
    (sim : List Int → List Int → Int) (llmInvoke : LLMConfig → String → String) : Prop :=
  ∀ k : Nat, k ≤ p.vector_store.length → ∃ question : String,
    (SimpleRAGPipeline.query p embed sim llmInvoke question).source_documents.length = k

/-- C8 counterexample: on a four-entry store no call of query can return
four documents — query's only argument is the question, and the built-in
k = 3 caps every retrieval, so k is not caller-configurable. -/
theorem k_not_caller_configurable :
    ¬ callerConfigurableK pFour embedLen simZero llmEcho := by
  intro h
  obtain ⟨q, hq⟩ := h 4 (by decide)
  have hlen : (SimpleRAGPipeline.query pFour embedLen simZero llmEcho q).source_documents.length
      = 3 := by
    show (retrieveDocs pFour embedLen simZero q).length = 3
    simp [retrieveDocs, searchIndex, pFour]
  rw [hlen] at hq
  exact absurd hq (by omega)

/-- C8 amended: the retrieval parameter k is hard-coded to 3 on every
construction path — SimpleRAGPipeline's constructor and setup_qa_chain both
fix k = 3 and the query surface accepts no k — and retrieval returns at
most retrieverK documents. -/
theorem k_fixed_at_three :
    (∀ embed pages, (SimpleRAGPipeline.init embed pages).retrieverK = 3)
    ∧ (∀ st m chain st', RAGPipeline.setup_qa_chain st m = .ok (chain, st') → chain.k = 3)
    ∧ (∀ p embed sim llmInvoke question,
        (SimpleRAGPipeline.query p embed sim llmInvoke question).source_documents.length
          ≤ p.retrieverK) := by
  refine ⟨fun _ _ => rfl, ?_, ?_⟩
  · intro st m chain st' h
    cases hv : st.vectorstore with
    | none => simp [RAGPipeline.setup_qa_chain, hv] at h
    | some store =>
      simp only [RAGPipeline.setup_qa_chain, hv] at h
      cases h
      rfl
  · intro p embed sim llmInvoke question
    show (retrieveDocs p embed sim question).length ≤ p.retrieverK
    simp only [retrieveDocs, searchIndex, List.length_map]
    exact List.length_take_le _ _

/-- C8 witness: setup_qa_chain over the sample store yields k = 3. -/
theorem k_fixed_at_three_witness : chainStore.k = 3 :=
  k_fixed_at_three.2.1 stStore "gpt-4o-mini" chainStore
    { stStore with qa_chain := some chainStore } rfl

/-- C9: both construction paths fix the generation temperature at 0 —
SimpleRAGPipeline's constructor (Ollama) and setup_qa_chain (ChatOpenAI) —
and a deterministic model function produces identical answers on identical
configuration and prompt. -/
theorem generation_temperature_zero :
    (∀ embed pages, (SimpleRAGPipeline.init embed pages).llm.temperature = 0)
    ∧ (∀ st m chain st', RAGPipeline.setup_qa_chain st m = .ok (chain, st') →
        chain.llm.temperature = 0)
    ∧ (∀ (g : LLMConfig → String → String) (c1 c2 : LLMConfig) (prompt1 prompt2 : String),
        c1 = c2 → prompt1 = prompt2 → g c1 prompt1 = g c2 prompt2) := by
  refine ⟨fun _ _ => rfl, ?_, ?_⟩
  · intro st m chain st' h
    cases hv : st.vectorstore with
    | none => simp [RAGPipeline.setup_qa_chain, hv] at h
    | some store =>
      simp only [RAGPipeline.setup_qa_chain, hv] at h
      cases h
      rfl
  · intro g c1 c2 p1 p2 h1 h2
    rw [h1, h2]

/-- C9 witness: the chain built over the sample store runs at temperature
0, and the echo model is reproducible on a fixed prompt. -/
theorem generation_temperature_zero_witness :
    chainStore.llm.temperature = 0
    ∧ llmEcho chainStore.llm "hola" = llmEcho chainStore.llm "hola" :=
  ⟨generation_temperature_zero.2.1 stStore "gpt-4o-mini" chainStore
      { stStore with qa_chain := some chainStore } rfl,
    generation_temperature_zero.2.2 llmEcho chainStore.llm chainStore.llm "hola" "hola" rfl rfl⟩

end SistemaRAG
